import Mathlib

/-!
Shallow embedding of the antnest master/worker job-distribution core:
src/job.py, src/master.py and src/commands/create_job.py.  Modules the
repository imports but does not ship under src (taskunit.py, schedule.py,
node.py, messenger.py, serialize.py) are modelled from the specification
where a claim needs them; each such definition says so in its doc comment.
Machine integers are Nat with explicit reduction modulo 2^32 where the MD5
arithmetic overflows; fallible Python code is embedded with Except.
-/

namespace Antnest

/-! ### Python runtime errors

The exceptions the embedded code can raise.  Each constructor carries the
message text of the corresponding CPython exception. -/

inductive PyError where
  | nameError (msg : String)
  | attributeError (msg : String)
  | typeError (msg : String)
  | keyError (msg : String)
  | valueError (msg : String)
  | indexError (msg : String)
deriving DecidableEq

/-- Whether an embedded Python computation finished without raising. -/
def exceptIsOk {ε α : Type} : Except ε α → Bool
  | .ok _ => true
  | .error _ => false

/-! ### Python dict (insertion-ordered association list)

A CPython dict preserves insertion order; assigning to an existing key
updates the value in place, assigning to a fresh key appends it. -/

def pyDictInsert {κ ν : Type} [DecidableEq κ] : List (κ × ν) → κ → ν → List (κ × ν)
  | [], key, val => [(key, val)]
  | (k, v) :: rest, key, val =>
      if k = key then (key, val) :: rest else (k, v) :: pyDictInsert rest key val

def pyDictGet {κ ν : Type} [DecidableEq κ] : List (κ × ν) → κ → Option ν
  | [], _ => none
  | (k, v) :: rest, key => if k = key then some v else pyDictGet rest key

/-! ### Bytes and UTF-8

Python bytes objects are lists of naturals below 256.  `bytes(s, 'UTF-8')`
encodes a text string; the encoder below is the standard UTF-8 scheme. -/

def utf8EncodeChar (c : Char) : List Nat :=
  let n := c.toNat
  if n < 0x80 then [n]
  else if n < 0x800 then
    [0xC0 ||| (n >>> 6), 0x80 ||| (n &&& 0x3F)]
  else if n < 0x10000 then
    [0xE0 ||| (n >>> 12), 0x80 ||| ((n >>> 6) &&& 0x3F), 0x80 ||| (n &&& 0x3F)]
  else
    [0xF0 ||| (n >>> 18), 0x80 ||| ((n >>> 12) &&& 0x3F),
     0x80 ||| ((n >>> 6) &&& 0x3F), 0x80 ||| (n &&& 0x3F)]

def utf8Bytes (s : String) : List Nat :=
  (s.data.map utf8EncodeChar).flatten

/-! ### MD5 (hashlib.md5)

hashlib is the Python standard library; the repository relies on its MD5
for the content-addressed identifiers, so the digest is embedded here in
full (RFC 1321).  All word arithmetic is Nat reduced modulo 2^32. -/

def w32 : Nat := 4294967296

def not32 (x : Nat) : Nat := x ^^^ 0xFFFFFFFF

def rotl32 (x n : Nat) : Nat :=
  ((x <<< n) % w32) ||| (x >>> (32 - n))

def md5K : List Nat :=
  [0xd76aa478, 0xe8c7b756, 0x242070db, 0xc1bdceee,
   0xf57c0faf, 0x4787c62a, 0xa8304613, 0xfd469501,
   0x698098d8, 0x8b44f7af, 0xffff5bb1, 0x895cd7be,
   0x6b901122, 0xfd987193, 0xa679438e, 0x49b40821,
   0xf61e2562, 0xc040b340, 0x265e5a51, 0xe9b6c7aa,
   0xd62f105d, 0x02441453, 0xd8a1e681, 0xe7d3fbc8,
   0x21e1cde6, 0xc33707d6, 0xf4d50d87, 0x455a14ed,
   0xa9e3e905, 0xfcefa3f8, 0x676f02d9, 0x8d2a4c8a,
   0xfffa3942, 0x8771f681, 0x6d9d6122, 0xfde5380c,
   0xa4beea44, 0x4bdecfa9, 0xf6bb4b60, 0xbebfbc70,
   0x289b7ec6, 0xeaa127fa, 0xd4ef3085, 0x04881d05,
   0xd9d4d039, 0xe6db99e5, 0x1fa27cf8, 0xc4ac5665,
   0xf4292244, 0x432aff97, 0xab9423a7, 0xfc93a039,
   0x655b59c3, 0x8f0ccc92, 0xffeff47d, 0x85845dd1,
   0x6fa87e4f, 0xfe2ce6e0, 0xa3014314, 0x4e0811a1,
   0xf7537e82, 0xbd3af235, 0x2ad7d2bb, 0xeb86d391]

def md5S : List Nat :=
  [7, 12, 17, 22, 7, 12, 17, 22, 7, 12, 17, 22, 7, 12, 17, 22,
   5, 9, 14, 20, 5, 9, 14, 20, 5, 9, 14, 20, 5, 9, 14, 20,
   4, 11, 16, 23, 4, 11, 16, 23, 4, 11, 16, 23, 4, 11, 16, 23,
   6, 10, 15, 21, 6, 10, 15, 21, 6, 10, 15, 21, 6, 10, 15, 21]

/-- `n` bytes of `v`, little-endian. -/
def leBytes (v : Nat) : Nat → List Nat
  | 0 => []
  | n + 1 => (v % 256) :: leBytes (v / 256) n

/-- MD5 padding: a 0x80 byte, zeros to 56 mod 64, then the 64-bit
little-endian bit length. -/
def md5Pad (msg : List Nat) : List Nat :=
  let l := msg.length
  let k := (119 - l % 64) % 64
  msg ++ [0x80] ++ List.replicate k 0 ++ leBytes ((l * 8) % 18446744073709551616) 8

/-- Split a byte list into 64-byte blocks (fuel-driven so that the kernel
can evaluate it). -/
def chunks64Aux : Nat → List Nat → List (List Nat)
  | 0, _ => []
  | _, [] => []
  | fuel + 1, x :: xs => ((x :: xs).take 64) :: chunks64Aux fuel ((x :: xs).drop 64)

def chunks64 (l : List Nat) : List (List Nat) := chunks64Aux l.length l

/-- Decode a 64-byte block into 16 little-endian 32-bit words. -/
def toWords : List Nat → List Nat
  | a :: b :: c :: d :: rest => (a + 256 * b + 65536 * c + 16777216 * d) :: toWords rest
  | _ => []

/-- One of the 64 MD5 rounds on state `(a, b, c, d)`. -/
def md5Round (M : List Nat) (st : Nat × Nat × Nat × Nat) (i : Nat) : Nat × Nat × Nat × Nat :=
  let (a, b, c, d) := st
  let fg : Nat × Nat :=
    if i < 16 then ((b &&& c) ||| (not32 b &&& d), i)
    else if i < 32 then ((d &&& b) ||| (not32 d &&& c), (5 * i + 1) % 16)
    else if i < 48 then (b ^^^ c ^^^ d, (3 * i + 5) % 16)
    else (c ^^^ (b ||| not32 d), (7 * i) % 16)
  let f := (fg.1 + a + md5K.getD i 0 + M.getD fg.2 0) % w32
  (d, (b + rotl32 f (md5S.getD i 0)) % w32, b, c)

def md5ProcessChunk (st : Nat × Nat × Nat × Nat) (chunk : List Nat) : Nat × Nat × Nat × Nat :=
  let M := toWords chunk
  let (a0, b0, c0, d0) := st
  let r := (List.range 64).foldl (md5Round M) st
  ((a0 + r.1) % w32, (b0 + r.2.1) % w32, (c0 + r.2.2.1) % w32, (d0 + r.2.2.2) % w32)

/-- The 16-byte MD5 digest of a byte string. -/
def md5Bytes (msg : List Nat) : List Nat :=
  let st := (chunks64 (md5Pad msg)).foldl md5ProcessChunk
    (0x67452301, 0xefcdab89, 0x98badcfe, 0x10325476)
  leBytes st.1 4 ++ leBytes st.2.1 4 ++ leBytes st.2.2.1 4 ++ leBytes st.2.2.2 4

def hexDigit (n : Nat) : Char :=
  if n < 10 then Char.ofNat (48 + n) else Char.ofNat (87 + n)

def byteToHex (b : Nat) : List Char := [hexDigit (b / 16), hexDigit (b % 16)]

/-- `hashlib.md5(msg).hexdigest()`: the digest as 32 lowercase hex characters. -/
def md5Hex (msg : List Nat) : String :=
  String.mk ((md5Bytes msg).map byteToHex).flatten

/-- RFC 1321 test vector validating the embedded digest. -/
theorem md5Hex_empty_vector : md5Hex [] = "d41d8cd98f00b204e9800998ecf8427e" := by decide

/-- RFC 1321 test vector validating the embedded digest. -/
theorem md5Hex_abc_vector :
    md5Hex (utf8Bytes "abc") = "900150983cd24fb0d6963f7d28e17f72" := by decide

/-! ### src/job.py -/

/-- A value that is either a Python str or a Python bytes object; the
identity functions accept both (the isinstance branches of job.py). -/
inductive PyData where
  | str (s : String)
  | bytes (b : List Nat)
deriving DecidableEq

/-- src/job.py lines 10-44.  Each of the four inputs is passed through when
it is bytes and encoded as UTF-8 otherwise, the four byte strings are
concatenated in order, and the MD5 hex digest of the concatenation is the
job id. -/
def compute_job_id (input_data processor_code split_code combine_code : PyData) : String :=
  let input_data_bytes := match input_data with
    | .bytes b => b
    | .str s => utf8Bytes s
  let processor_code_bytes := match processor_code with
    | .bytes b => b
    | .str s => utf8Bytes s
  let split_code_bytes := match split_code with
    | .bytes b => b
    | .str s => utf8Bytes s
  let combine_code_bytes := match combine_code with
    | .bytes b => b
    | .str s => utf8Bytes s
  let hashable := input_data_bytes ++ processor_code_bytes ++
                  split_code_bytes ++ combine_code_bytes
  md5Hex hashable

/-- The byte representation of one input as the specification words it:
text is normalized to UTF-8, binary passes through unchanged.  Used as the
spec-side characterization that `compute_job_id` is checked against. -/
def specByteRepr : PyData → List Nat
  | .str s => utf8Bytes s
  | .bytes b => b

/-- The job id as §4.1 of the specification words it: the hash of the
concatenation of the four byte representations in the fixed order. -/
def spec_job_id (input_data processor_code split_code combine_code : PyData) : String :=
  md5Hex (specByteRepr input_data ++ specByteRepr processor_code ++
          specByteRepr split_code ++ specByteRepr combine_code)

/-- Modelled from the spec: taskunit.py is not under src/.  §4.1 defines
`taskunit_id(data, processor_source)` as the same scheme as the job id over
two inputs: concatenate the byte representations and hash. -/
def compute_taskunit_id (data processor_code : String) : String :=
  md5Hex (utf8Bytes data ++ utf8Bytes processor_code)

/-- Modelled from the spec: taskunit.py is not under src/.  §3 lists the
fields of a TaskUnit; the Splitter constructs one from data and processor
only, the master fills in id and job_id, the result and state arrive with a
TASKUNIT_RESULT message.  The processor is carried as its source text (the
master ships `inspect.getsource(tu.processor)`). -/
structure TaskUnit where
  id : Option String
  job_id : Option String
  data : String
  processor : String
  result : Option Int
  state : Option Nat
  retries : Nat
deriving DecidableEq

/-- `taskunit.TaskUnit(data=line, processor=processor)`: the constructor
call made by the default split method, every other field unset. -/
def mkTaskUnit (data processor : String) : TaskUnit :=
  { id := none, job_id := none, data := data, processor := processor,
    result := none, state := none, retries := 0 }

/-- `str.split(sep)` in Python: cut at every separator, keeping empty
pieces, so the result has one piece more than the input has separators. -/
def pySplitAux (sep : Char) : List Char → List Char → List (List Char)
  | [], acc => [acc.reverse]
  | c :: cs, acc =>
      if c = sep then acc.reverse :: pySplitAux sep cs []
      else pySplitAux sep cs (c :: acc)

def pySplit (sep : Char) (s : String) : List String :=
  (pySplitAux sep s.data []).map String.mk

/-- The Splitter strategy object of src/job.py lines 86-104.  A user can
rebind the split method; `split_override` records such a rebinding (the
create_job tool assigns `splitter.split = jobcode.split`, held here as the
source name of the replacement).  The default method is `Splitter.split`
below. -/
structure Splitter where
  split_override : Option String
deriving DecidableEq

/-- src/job.py lines 106-121, the default split method: the input data is
split at newlines and one TaskUnit is created for each line, carrying the
line as data and the job processor.  (The Python generator is lazy; its
full materialization, which is what the master iterates, is this list.) -/
def Splitter.split (input_data : String) (processor : String) : List TaskUnit :=
  (pySplit '\n' input_data).map (fun line => mkTaskUnit line processor)

/-- The Combiner strategy object of src/job.py lines 124-135: it
accumulates taskunits in a list; a user can rebind the combine method
(`combine_override`, as for the Splitter). -/
structure Combiner where
  taskunits : List TaskUnit
  combine_override : Option String
deriving DecidableEq

/-- src/job.py lines 143-150: extend the accumulated taskunit list. -/
def Combiner.add_taskunits (self : Combiner) (tu : List TaskUnit) : Combiner :=
  { self with taskunits := self.taskunits ++ tu }

/-- The import list at the head of src/job.py (lines 1-7).  The module
never imports `time`, which `Combiner.combine` uses. -/
def jobModuleImportedNames : List String :=
  ["json", "hashlib", "serialize", "taskunit"]

/-- Python `sum` over the accumulated results, left to right from 0; adding
a missing (None) result raises TypeError. -/
def pySum : List (Option Int) → Except PyError Int
  | [] => .ok 0
  | none :: _ =>
      .error (.typeError "unsupported operand type(s) for +: int and NoneType")
  | some x :: rest =>
      match pySum rest with
      | .ok s => .ok (x + s)
      | .error e => .error e

/-- `json.dumps` of an integer scalar; the indent argument only affects
containers, so the serialized text is the decimal numeral. -/
def json_dumps_int (n : Int) : String := toString n

/-- src/job.py lines 152-170, the default combine method: sum the results,
serialize the sum with json.dumps, then open the output file named
result_ plus the current timestamp.  The file name evaluates
`time.strftime`, and the name `time` resolves in the globals of job.py,
whose import list is `jobModuleImportedNames`; an unimported name raises
NameError there.  `now` stands for the strftime text of the wall clock; on
success the result is the pair (file name written, text written). -/
def Combiner.combine (self : Combiner) (now : String) : Except PyError (String × String) :=
  let results := self.taskunits.map TaskUnit.result
  match pySum results with
  | .error e => .error e
  | .ok combined_result =>
      let json_string := json_dumps_int combined_result
      if jobModuleImportedNames.contains "time" then
        .ok ("result_" ++ now, json_string)
      else
        .error (.nameError "name time is not defined")

/-- The Job class attribute slot: src/job.py line 75 assigns the processor
to `self.__class__.processor`, i.e. onto the Job class itself, shared by
every instance. -/
structure JobClassState where
  processor : Option String
deriving DecidableEq

/-- One Job instance as Job.__init__ (src/job.py lines 53-83) builds it.
The instance stores id, input_data, splitter, combiner and an empty
taskunits map; it has no processor slot of its own (the processor goes to
the class, see `JobClassState`). -/
structure JobInstance where
  id : Option String
  input_data : Option String
  splitter : Splitter
  combiner : Combiner
  taskunits : List (String × TaskUnit)
deriving DecidableEq

/-- src/job.py lines 53-83, Job.__init__: records id and input_data on the
instance, writes the processor onto the Job class, falls back to a fresh
default Splitter and Combiner when none is passed, and starts with an
empty taskunit map.  No argument is validated: a missing (None) processor
is accepted. -/
def mkJob (cls : JobClassState) (id : Option String) (input_data : Option String)
    (processor : Option String) (splitter : Option Splitter)
    (combiner : Option Combiner) : JobInstance × JobClassState :=
  ({ id := id
     input_data := input_data
     splitter := match splitter with
       | some sp => sp
       | none => { split_override := none }
     combiner := match combiner with
       | some co => co
       | none => { taskunits := [], combine_override := none }
     taskunits := [] },
   { cls with processor := processor })

/-- Python attribute lookup for `some_job.processor`: the instance holds no
own processor attribute, so the lookup falls through to the Job class. -/
def jobProcessor (cls : JobClassState) (_inst : JobInstance) : Option String :=
  cls.processor

/-! ### src/master.py -/

/-- A network address: the (host, port) pair. -/
def Address : Type := String × Nat

deriving instance DecidableEq for Address

/-- Modelled from the spec: node.py is not under src/.  §3 gives the node
states UP and DOWN as integer codes; the concrete integers do not matter
to any claim, only the comparison against STATE_UP in the master loop. -/
def Node.STATE_UP : Nat := 0

/-- Modelled from the spec: node.py is not under src/. -/
def Node.STATE_DOWN : Nat := 1

/-- Modelled from the spec: schedule.py is not under src/.  §4.4: the
MinMakespan scheduler keeps one cumulative load per worker slot.  Helper
returning the index of the minimum load, ties broken by lowest index;
`i` is the index of the head of the remaining list, `besti`/`bestv` the
best slot seen so far. -/
def argminAux : List Nat → Nat → Nat → Nat → Nat
  | [], _, besti, _ => besti
  | x :: xs, i, besti, bestv =>
      if x < bestv then argminAux xs (i + 1) i x else argminAux xs (i + 1) besti bestv

/-- Modelled from the spec: schedule.py is not under src/.  §4.4
`schedule_job`: select the slot with the minimum current load (ties to the
lowest index), increment that slot by one unit of cost and return the
index together with the updated loads.  With zero registered slots there
is no minimum; §7 notes this error condition is unhandled in the source,
so the empty case is a failure, not a silent no-op. -/
def schedule_job (loads : List Nat) : Option (Nat × List Nat) :=
  match loads with
  | [] => none
  | x :: xs =>
      let idx := argminAux xs 1 0 x
      some (idx, (x :: xs).set idx ((x :: xs).getD idx 0 + 1))

/-- The restricted attribute set the master ships to a slave for one
taskunit (src/master.py lines 103-105: id, job_id, data, processor._code,
retries) together with the destination address. -/
structure SentUnit where
  id : Option String
  job_id : Option String
  data : String
  processor_code : String
  retries : Nat
  dest : Address
deriving DecidableEq

/-- The master bookkeeping for one job: the deserialized fields plus the
taskunit map and pending counter the master maintains (src/master.py
lines 85-106). -/
structure JobRec where
  id : String
  input_data : String
  processor : String
  taskunits : List (String × TaskUnit)
  pending_taskunits : Nat
deriving DecidableEq

/-- The mutable state owned by the master loop (src/master.py lines
30-36): the slave node list, the MinMakespan load vector, the messenger
destination map, the job table, and the log of taskunits sent out. -/
structure MasterState where
  slave_nodes : List Address
  loads : List Nat
  destinations : List (String × Address)
  jobs : List (String × JobRec)
  sent : List SentUnit
deriving DecidableEq

/-- A JOB message payload after deserialization: the submitted job arrives
with its id, input data and processor source; its taskunit map is empty at
send time (§6).  The embedded master runs the default split method on it
(a job whose splitter was rebound executes foreign code outside this
core). -/
structure JobPayload where
  id : String
  input_data : String
  processor : String
deriving DecidableEq

/-- A TASKUNIT_RESULT message payload: the taskunit coming back from a
slave carries its id, owning job id, result and state (§6). -/
structure ResultPayload where
  id : String
  job_id : String
  result : Option Int
  state : Option Nat
deriving DecidableEq

/-- Modelled from the spec: message.py is not under src/.  §6: an envelope
is one of the types STATUS, JOB, TASKUNIT_RESULT (any other type falls
through the master dispatch); the source address of a STATUS message is
available out-of-band and is carried on the constructor here. -/
inductive Msg where
  | status (source : Address) (code : Nat)
  | jobMsg (payload : JobPayload)
  | taskunitResult (payload : ResultPayload)
  | other
deriving DecidableEq

/-- src/master.py lines 73-81, the STATUS branch: on STATE_UP append a
RemoteNode for the source address to slave_nodes, add a machine slot to
the scheduler, and register the address as destination slave1 — one
append to each, with no lookup of the address, so a repeated STATUS UP
from the same address registers again.  Any other status code changes
nothing. -/
def handleStatus (s : MasterState) (address : Address) (code : Nat) : MasterState :=
  if code = Node.STATE_UP then
    { s with slave_nodes := s.slave_nodes ++ [address]
             loads := s.loads ++ [0]
             destinations := pyDictInsert s.destinations "slave1" address }
  else s

/-- The dispatch loop of src/master.py lines 87-105: for each taskunit
from the split, compute its id from (data, processor source), fill id and
job_id, store it in the job taskunit dict, ask the scheduler for a slot,
resolve the slot index in slave_nodes (an index beyond the list raises
IndexError; an empty load vector is the unhandled zero-worker error of
§7), and send the restricted attribute set to that address. -/
def dispatchAll (jobId : String) :
    List TaskUnit → List (String × TaskUnit) → MasterState →
    Except PyError (List (String × TaskUnit) × MasterState)
  | [], d, s => .ok (d, s)
  | tu :: rest, d, s =>
      let tid := compute_taskunit_id tu.data tu.processor
      let tu1 := { tu with id := some tid, job_id := some jobId }
      let d1 := pyDictInsert d tid tu1
      match schedule_job s.loads with
      | none => .error (.valueError "min() arg is an empty sequence")
      | some (idx, loads1) =>
          match s.slave_nodes[idx]? with
          | none => .error (.indexError "list index out of range")
          | some slave_address =>
              dispatchAll jobId rest d1
                { s with loads := loads1
                         sent := s.sent ++
                           [{ id := some tid, job_id := some jobId, data := tu.data,
                              processor_code := tu.processor, retries := tu.retries,
                              dest := slave_address }] }

/-- src/master.py lines 82-106, the JOB branch: deserialize the job, store
it in the job table under its id, run the splitter, dispatch every
taskunit, and finally set pending_taskunits to the size of the taskunit
dict (`len(j.taskunits)`). -/
def handleJob (s : MasterState) (p : JobPayload) : Except PyError MasterState :=
  match dispatchAll p.id (Splitter.split p.input_data p.processor) [] s with
  | .error e => .error e
  | .ok (d, s1) =>
      let jrec : JobRec :=
        { id := p.id, input_data := p.input_data, processor := p.processor,
          taskunits := d, pending_taskunits := d.length }
      .ok { s1 with jobs := pyDictInsert s1.jobs p.id jrec }

/-- One iteration of the master loop body, src/master.py lines 72-119, on
an arrived message.  The TASKUNIT_RESULT branch begins (line 110) with
`tu = deserialized_msg`; no name `deserialized_msg` is bound anywhere in
master.py, so CPython raises NameError there before any lookup or
bookkeeping, and the uncaught exception terminates the loop — .error
embeds that crash.  A message of any other type falls through the
if/elif chain and the loop continues unchanged. -/
def masterStep (s : MasterState) : Msg → Except PyError MasterState
  | .status source code => .ok (handleStatus s source code)
  | .jobMsg p => handleJob s p
  | .taskunitResult _ => .error (.nameError "name deserialized_msg is not defined")
  | .other => .ok s

/-! ### src/commands/create_job.py -/

/-- A jobs/<name> module as the submission tool reads it: per the comment
in create_job.py it contains at most the methods split, combine, processor
and the variables input_data, input_file; each field is `none` when the
module does not define that attribute (Python then raises AttributeError
on access). -/
structure JobModule where
  processor : Option String
  split : Option String
  combine : Option String
  input_data : Option String
  input_file : Option String
deriving DecidableEq

/-- The parameter names Job.__init__ declares (src/job.py lines 53-58). -/
def jobInitParams : List String :=
  ["self", "id", "input_data", "processor", "splitter", "combiner"]

/-- The keyword names of the Job(...) call in enqueue_job
(src/commands/create_job.py lines 32-35). -/
def enqueueJobCallKwargs : List String :=
  ["processor", "input_file", "splitter", "combiner"]

/-- The job sent out on the wire when enqueue_job reaches `m.send_job`. -/
structure SentJob where
  job : JobInstance
deriving DecidableEq

/-- src/commands/create_job.py lines 11-44, enqueue_job: the two
try/except blocks swallow a missing combine or split attribute and fall
back to None; then the Job(...) call evaluates its keyword arguments in
order — `jobcode.processor` and `jobcode.input_file` raise AttributeError
when the module lacks them — and Python matches the keyword names against
the parameters of Job.__init__, raising TypeError at the first unexpected
keyword.  Only after a successful construction would the job be handed to
`m.send_job`; an exception aborts the call with nothing sent, so `.ok`
is reached exactly when a job goes out. -/
def enqueue_job (mod : JobModule) : Except PyError SentJob :=
  let combiner : Option Combiner :=
    match mod.combine with
    | some c => some { taskunits := [], combine_override := some c }
    | none => none
  let splitter : Option Splitter :=
    match mod.split with
    | some sp => some { split_override := some sp }
    | none => none
  match mod.processor with
  | none => .error (.attributeError "module jobs has no attribute processor")
  | some processor_src =>
      match mod.input_file with
      | none => .error (.attributeError "module jobs has no attribute input_file")
      | some _ =>
          match enqueueJobCallKwargs.find? (fun k => !(jobInitParams.contains k)) with
          | some bad =>
              .error (.typeError ("unexpected keyword argument " ++ bad))
          | none =>
              let jc := mkJob { processor := none } none none (some processor_src)
                splitter combiner
              .ok { job := jc.1 }

/-! ### Lemmas about the split -/

/-- Rejoining split pieces with the separator; inverse of `pySplitAux`. -/
def joinLines (sep : Char) : List (List Char) → List Char
  | [] => []
  | [x] => x
  | x :: y :: rest => x ++ sep :: joinLines sep (y :: rest)

theorem pySplitAux_length (sep : Char) :
    ∀ (cs acc : List Char), (pySplitAux sep cs acc).length = cs.count sep + 1 := by
  intro cs
  induction cs with
  | nil => intro acc; simp [pySplitAux]
  | cons c cs ih =>
      intro acc
      by_cases h : c = sep
      · subst h
        simp [pySplitAux, ih, List.count_cons]
      · simp [pySplitAux, h, ih, List.count_cons]

theorem pySplitAux_ne_nil (sep : Char) :
    ∀ (cs acc : List Char), pySplitAux sep cs acc ≠ [] := by
  intro cs
  induction cs with
  | nil => intro acc; simp [pySplitAux]
  | cons c cs ih =>
      intro acc
      by_cases h : c = sep
      · simp [pySplitAux, h]
      · simp only [pySplitAux, if_neg h]
        exact ih (c :: acc)

theorem joinLines_cons (sep : Char) (x : List Char) (l : List (List Char)) (h : l ≠ []) :
    joinLines sep (x :: l) = x ++ sep :: joinLines sep l := by
  cases l with
  | nil => exact absurd rfl h
  | cons y ys => rfl

theorem pySplitAux_join (sep : Char) :
    ∀ (cs acc : List Char), joinLines sep (pySplitAux sep cs acc) = acc.reverse ++ cs := by
  intro cs
  induction cs with
  | nil => intro acc; simp [pySplitAux, joinLines]
  | cons c cs ih =>
      intro acc
      by_cases h : c = sep
      · rw [pySplitAux, if_pos h,
            joinLines_cons sep _ _ (pySplitAux_ne_nil sep cs []), ih]
        simp [h]
      · rw [pySplitAux, if_neg h, ih]
        simp

theorem map_mk_data (L : List (List Char)) :
    (L.map String.mk).map String.data = L := by
  induction L with
  | nil => rfl
  | cons x xs ih => simp only [List.map_cons]; rw [ih]

theorem map_mkTaskUnit_data (processor : String) (L : List String) :
    (L.map (fun line => mkTaskUnit line processor)).map TaskUnit.data = L := by
  induction L with
  | nil => rfl
  | cons x xs ih =>
      simp only [List.map_cons]
      rw [ih]
      rfl

/-! ### Lemmas about the Python dict and key sets -/

/-- The effect of one dict assignment on the key list: an existing key
leaves the keys unchanged, a fresh key is appended. -/
def insKey {κ : Type} [DecidableEq κ] (ks : List κ) (k : κ) : List κ :=
  if k ∈ ks then ks else ks ++ [k]

theorem pyDictInsert_keys {κ ν : Type} [DecidableEq κ] (d : List (κ × ν)) (k : κ) (v : ν) :
    (pyDictInsert d k v).map Prod.fst = insKey (d.map Prod.fst) k := by
  induction d with
  | nil => simp [pyDictInsert, insKey]
  | cons kv rest ih =>
      obtain ⟨k0, v0⟩ := kv
      by_cases h : k0 = k
      · subst h
        simp [pyDictInsert, insKey]
      · simp only [pyDictInsert, if_neg h, List.map_cons, ih, insKey]
        by_cases hm : k ∈ rest.map Prod.fst
        · simp [hm, List.mem_cons, Ne.symm h]
        · simp [hm, List.mem_cons, Ne.symm h]

theorem pyDictGet_insert_self {κ ν : Type} [DecidableEq κ] (d : List (κ × ν)) (k : κ) (v : ν) :
    pyDictGet (pyDictInsert d k v) k = some v := by
  induction d with
  | nil => simp [pyDictInsert, pyDictGet]
  | cons kv rest ih =>
      obtain ⟨k0, v0⟩ := kv
      by_cases h : k0 = k
      · subst h
        simp [pyDictInsert, pyDictGet]
      · simp [pyDictInsert, pyDictGet, h, ih]

theorem insKey_toFinset {κ : Type} [DecidableEq κ] (ks : List κ) (k : κ) :
    (insKey ks k).toFinset = insert k ks.toFinset := by
  by_cases hm : k ∈ ks
  · rw [insKey, if_pos hm, Finset.insert_eq_self.mpr (List.mem_toFinset.mpr hm)]
  · rw [insKey, if_neg hm, List.toFinset_append]
    simp [Finset.union_comm, Finset.insert_eq]

theorem insKey_nodup {κ : Type} [DecidableEq κ] (ks : List κ) (k : κ) (h : ks.Nodup) :
    (insKey ks k).Nodup := by
  by_cases hm : k ∈ ks
  · rw [insKey, if_pos hm]; exact h
  · rw [insKey, if_neg hm]
    simp [List.nodup_append, h, hm]

theorem foldl_insKey_nodup {κ : Type} [DecidableEq κ] :
    ∀ (ids ks : List κ), ks.Nodup → (ids.foldl insKey ks).Nodup := by
  intro ids
  induction ids with
  | nil => intro ks h; exact h
  | cons i ids ih =>
      intro ks h
      exact ih (insKey ks i) (insKey_nodup ks i h)

theorem foldl_insKey_toFinset {κ : Type} [DecidableEq κ] :
    ∀ (ids ks : List κ), (ids.foldl insKey ks).toFinset = ks.toFinset ∪ ids.toFinset := by
  intro ids
  induction ids with
  | nil => intro ks; simp
  | cons i ids ih =>
      intro ks
      rw [List.foldl_cons, ih, insKey_toFinset]
      ext a
      simp [List.mem_toFinset, or_assoc]

theorem foldl_insKey_card {κ : Type} [DecidableEq κ] (ids : List κ) :
    (ids.foldl insKey ([] : List κ)).length = ids.toFinset.card := by
  have h1 : (ids.foldl insKey ([] : List κ)).Nodup :=
    foldl_insKey_nodup ids [] List.nodup_nil
  rw [← List.toFinset_card_of_nodup h1, foldl_insKey_toFinset ids []]
  simp

/-! ### Lemmas about the scheduler and the dispatch loop -/

theorem argminAux_lt :
    ∀ (xs : List Nat) (i besti bestv : Nat), besti < i →
      argminAux xs i besti bestv < i + xs.length := by
  intro xs
  induction xs with
  | nil => intro i besti bestv h; simpa [argminAux] using h
  | cons x xs ih =>
      intro i besti bestv h
      by_cases hx : x < bestv
      · rw [argminAux, if_pos hx]
        have := ih (i + 1) i x (Nat.lt_succ_self i)
        simpa [Nat.add_comm, Nat.add_assoc, Nat.add_left_comm] using this
      · rw [argminAux, if_neg hx]
        have := ih (i + 1) besti bestv (Nat.lt_succ_of_lt h)
        simpa [Nat.add_comm, Nat.add_assoc, Nat.add_left_comm] using this

theorem schedule_job_spec (loads : List Nat) (h : loads ≠ []) :
    ∃ idx loads1, schedule_job loads = some (idx, loads1) ∧
      idx < loads.length ∧ loads1.length = loads.length := by
  cases loads with
  | nil => exact absurd rfl h
  | cons x xs =>
      refine ⟨argminAux xs 1 0 x, _, rfl, ?_, ?_⟩
      · have := argminAux_lt xs 1 0 x Nat.one_pos
        simpa [Nat.add_comm] using this
      · simp

theorem schedule_job_length (loads : List Nat) (idx : Nat) (loads1 : List Nat)
    (h : schedule_job loads = some (idx, loads1)) : loads1.length = loads.length := by
  cases loads with
  | nil => simp [schedule_job] at h
  | cons x xs =>
      simp only [schedule_job, Option.some.injEq, Prod.mk.injEq] at h
      rw [← h.2]
      simp

/-- Running the dispatch loop from a state whose scheduler has at least one
slot and whose load vector is aligned with the slave list succeeds, leaves
slave list, load-vector length and job table unchanged, and its taskunit
dict has exactly the keys obtained by folding the computed taskunit ids
into the starting keys. -/
theorem dispatchAll_spec (jobId : String) :
    ∀ (units : List TaskUnit) (d : List (String × TaskUnit)) (s : MasterState),
      s.loads ≠ [] → s.loads.length = s.slave_nodes.length →
      ∃ d1 s1, dispatchAll jobId units d s = .ok (d1, s1) ∧
        d1.map Prod.fst =
          (units.map (fun tu => compute_taskunit_id tu.data tu.processor)).foldl insKey
            (d.map Prod.fst) ∧
        s1.slave_nodes = s.slave_nodes ∧ s1.loads.length = s.loads.length ∧
        s1.jobs = s.jobs := by
  intro units
  induction units with
  | nil =>
      intro d s _ _
      exact ⟨d, s, rfl, by simp, rfl, rfl, rfl⟩
  | cons tu rest ih =>
      intro d s h1 h2
      obtain ⟨idx, loads1, hsched, hidx, hlen⟩ := schedule_job_spec s.loads h1
      have hidx2 : idx < s.slave_nodes.length := h2 ▸ hidx
      have hget : s.slave_nodes[idx]? = some (s.slave_nodes[idx]) :=
        List.getElem?_eq_getElem hidx2
      have h1' : loads1 ≠ [] := by
        intro hc
        rw [hc] at hlen
        exact h1 (List.length_eq_zero.mp hlen.symm)
      have h2' : loads1.length = s.slave_nodes.length := hlen.trans h2
      obtain ⟨d1, s1, hrec, hkeys, hsn, hll, hjobs⟩ :=
        ih (pyDictInsert d (compute_taskunit_id tu.data tu.processor)
              { tu with id := some (compute_taskunit_id tu.data tu.processor),
                        job_id := some jobId })
           { s with loads := loads1,
                    sent := s.sent ++
                      [{ id := some (compute_taskunit_id tu.data tu.processor),
                         job_id := some jobId, data := tu.data,
                         processor_code := tu.processor, retries := tu.retries,
                         dest := s.slave_nodes[idx] }] }
           h1' h2'
      refine ⟨d1, s1, ?_, ?_, hsn, hll.trans hlen, hjobs⟩
      · simp only [dispatchAll, hsched, hget]
        exact hrec
      · rw [List.map_cons, List.foldl_cons, hkeys, pyDictInsert_keys]

/-- Whenever the dispatch loop returns without raising, it has not touched
the slave list, the load-vector length, the job table or the destination
map (no hypotheses on the starting state). -/
theorem dispatchAll_ok_state (jobId : String) :
    ∀ (units : List TaskUnit) (d : List (String × TaskUnit)) (s : MasterState)
      (d1 : List (String × TaskUnit)) (s1 : MasterState),
      dispatchAll jobId units d s = .ok (d1, s1) →
      s1.slave_nodes = s.slave_nodes ∧ s1.loads.length = s.loads.length ∧
      s1.jobs = s.jobs ∧ s1.destinations = s.destinations := by
  intro units
  induction units with
  | nil =>
      intro d s d1 s1 h
      simp only [dispatchAll, Except.ok.injEq, Prod.mk.injEq] at h
      rw [← h.2]
      exact ⟨rfl, rfl, rfl, rfl⟩
  | cons tu rest ih =>
      intro d s d1 s1 h
      simp only [dispatchAll] at h
      cases hsched : schedule_job s.loads with
      | none => simp [hsched] at h
      | some pair =>
          obtain ⟨idx, loads1⟩ := pair
          simp only [hsched] at h
          cases hget : s.slave_nodes[idx]? with
          | none => simp [hget] at h
          | some addr =>
              simp only [hget] at h
              obtain ⟨hsn, hll, hj, hdst⟩ := ih _ _ _ _ h
              exact ⟨hsn, hll.trans (schedule_job_length s.loads idx loads1 hsched),
                     hj, hdst⟩

/-- The pending_taskunits counter the master records for job `jid` after
one loop iteration on message `m` (none when the iteration raised or no
such job is in the table). -/
def jobPendingAfter (s : MasterState) (m : Msg) (jid : String) : Option Nat :=
  match masterStep s m with
  | .ok s1 => (pyDictGet s1.jobs jid).map JobRec.pending_taskunits
  | .error _ => none

/-! ### Concrete fixtures used by the claim theorems -/

/-- A master state with one registered worker and one zero-load slot. -/
def oneWorkerState : MasterState :=
  { slave_nodes := [("w1", 4)], loads := [0], destinations := [("slave1", ("w1", 4))],
    jobs := [], sent := [] }

/-- A freshly started master: nothing registered, no jobs. -/
def cEmptyMaster : MasterState :=
  { slave_nodes := [], loads := [], destinations := [], jobs := [], sent := [] }

def cUnitA : TaskUnit :=
  { mkTaskUnit "a" "p" with id := some (compute_taskunit_id "a" "p"), job_id := some "j1" }

def cUnitB : TaskUnit :=
  { mkTaskUnit "b" "p" with id := some (compute_taskunit_id "b" "p"), job_id := some "j1" }

/-- A job the master has split and dispatched, awaiting two results. -/
def cAwaitingJob : JobRec :=
  { id := "j1", input_data := "a\nb", processor := "p",
    taskunits := [(compute_taskunit_id "a" "p", cUnitA),
                  (compute_taskunit_id "b" "p", cUnitB)],
    pending_taskunits := 2 }

/-- The master state holding `cAwaitingJob` with both units outstanding. -/
def cAwaitingState : MasterState :=
  { slave_nodes := [("w1", 4)], loads := [2], destinations := [("slave1", ("w1", 4))],
    jobs := [("j1", cAwaitingJob)], sent := [] }

/-- A well-formed result for a unit and job the master knows. -/
def cKnownResult : ResultPayload :=
  { id := compute_taskunit_id "a" "p", job_id := "j1", result := some 3, state := some 2 }

/-- A result whose job id is unknown to the master bookkeeping. -/
def cStrayResult : ResultPayload :=
  { id := "feedface", job_id := "deadbeef", result := some 1, state := some 2 }

/-- A taskunit carrying a numeric result, as the combiner receives them. -/
def cResultUnit (r : Int) : TaskUnit := { mkTaskUnit "x" "p" with result := some r }

def c4cPayload : JobPayload := { id := "jobA", input_data := "a\na", processor := "p" }

def c4wPayload : JobPayload := { id := "job1", input_data := "a\nb", processor := "p" }

def c9P1 : Option String := some "def processor(d):\n    return 1\n"

def c9P2 : Option String := some "def processor(d):\n    return 2\n"

/-- A jobs module that defines no processor (the create_job comment allows
this: the module holds at most the three methods). -/
def cNoProcModule : JobModule :=
  { processor := none, split := none, combine := some "def combine(self):\n    pass\n",
    input_data := some "1\n2\n3", input_file := some "input.txt" }

/-- A jobs module defining processor and input_file, so that the Job call
itself is reached. -/
def cCompleteModule : JobModule :=
  { processor := some "def processor(d):\n    return 1\n", split := none, combine := none,
    input_data := some "1\n2", input_file := some "input.txt" }

/-! ### The claims -/

/-- C1: the claim says a TASKUNIT_RESULT message makes the master look up
the owning job and unit, record result and state, decrement
pending_taskunits and combine at zero.  The code cannot do any of this:
line 110 of src/master.py reads the undefined name deserialized_msg, so
the branch raises NameError before touching any bookkeeping, even in the
claim's happy case where the state holds the owning job with both ids
known and two results pending. -/
theorem c1_result_branch_raises_nameerror :
    masterStep cAwaitingState (Msg.taskunitResult cKnownResult) =
      .error (.nameError "name deserialized_msg is not defined") := rfl

/-- C2: the claim says the default combine sums numeric results (2, 5 and
3 give 10) and writes the text to a timestamp-named file without raising.
The sum stage indeed yields 10 and json.dumps would serialize it as the
text 10, but src/job.py never imports time, so building the output file
name raises NameError at line 168 and no file is written, for every value
of the clock. -/
theorem c2_combine_sums_then_raises_nameerror (now : String) :
    pySum ((Combiner.add_taskunits { taskunits := [], combine_override := none }
        [cResultUnit 2, cResultUnit 5, cResultUnit 3]).taskunits.map TaskUnit.result) =
      .ok 10 ∧
    json_dumps_int 10 = "10" ∧
    (Combiner.add_taskunits { taskunits := [], combine_override := none }
        [cResultUnit 2, cResultUnit 5, cResultUnit 3]).combine now =
      .error (.nameError "name time is not defined") :=
  ⟨rfl, rfl, rfl⟩

/-- C3: an input string with N line separators splits into exactly N+1
TaskUnits, one per line including empty ones, in original order, each
carrying its line as data; rejoining the emitted lines with the separator
reproduces the input, so no line is skipped or merged. -/
theorem c3_split_emits_one_taskunit_per_line (input processor : String) (n : Nat)
    (h : input.data.count '\n' = n) :
    (Splitter.split input processor).length = n + 1 ∧
    (Splitter.split input processor).map TaskUnit.data = pySplit '\n' input ∧
    joinLines '\n' ((pySplit '\n' input).map String.data) = input.data := by
  refine ⟨?_, ?_, ?_⟩
  · simp only [Splitter.split, pySplit, List.length_map]
    rw [pySplitAux_length, h]
  · exact map_mkTaskUnit_data processor (pySplit '\n' input)
  · simp only [pySplit]
    rw [map_mk_data, pySplitAux_join]
    simp

/-- C3 witness: the spec example, input with two separators giving the
three lines a, b and the empty line. -/
theorem c3_witness :
    (Splitter.split "a\nb\n" "p").length = 2 + 1 ∧
    (Splitter.split "a\nb\n" "p").map TaskUnit.data = pySplit '\n' "a\nb\n" ∧
    joinLines '\n' ((pySplit '\n' "a\nb\n").map String.data) = "a\nb\n".data :=
  c3_split_emits_one_taskunit_per_line "a\nb\n" "p" 2 (by decide)

/-- C4 counterexample: the JOB message with input data a-newline-a splits
into K = 2 TaskUnits, but both lines are equal, so both units get the same
content-derived id, the taskunit dict collapses them, and the master sets
pending_taskunits to 1, not 2. -/
theorem c4_counterexample :
    (Splitter.split "a\na" "p").length = 2 ∧
    jobPendingAfter oneWorkerState (Msg.jobMsg c4cPayload) "jobA" = some 1 :=
  ⟨rfl, rfl⟩

/-- C4 as amended: after the master dispatches a JOB message (from a state
with at least one registered worker and the load vector aligned with the
worker list), the stored pending_taskunits equals the number of distinct
taskunit ids among the split units — the dict keyed by id collapses
duplicates — which is the split count K only when all ids are distinct. -/
theorem c4_pending_counts_distinct_unit_ids (s : MasterState) (p : JobPayload)
    (h1 : s.loads ≠ []) (h2 : s.loads.length = s.slave_nodes.length) :
    jobPendingAfter s (Msg.jobMsg p) p.id =
      some (((Splitter.split p.input_data p.processor).map
        (fun tu => compute_taskunit_id tu.data tu.processor)).toFinset.card) := by
  obtain ⟨d1, s1, hd, hkeys, _, _, _⟩ :=
    dispatchAll_spec p.id (Splitter.split p.input_data p.processor) [] s h1 h2
  have hpend : d1.length = ((Splitter.split p.input_data p.processor).map
      (fun tu => compute_taskunit_id tu.data tu.processor)).toFinset.card := by
    have hlen : d1.length = (d1.map Prod.fst).length := (List.length_map d1 Prod.fst).symm
    rw [hlen, hkeys]
    simpa using foldl_insKey_card ((Splitter.split p.input_data p.processor).map
      (fun tu => compute_taskunit_id tu.data tu.processor))
  simp only [jobPendingAfter, masterStep, handleJob, hd, pyDictGet_insert_self,
    Option.map_some']
  exact congrArg some hpend

/-- C4 witness: one worker, a two-line input with distinct lines, so the
distinct-id count is computed as stated by the amended claim. -/
theorem c4_witness :
    jobPendingAfter oneWorkerState (Msg.jobMsg c4wPayload) c4wPayload.id =
      some (((Splitter.split c4wPayload.input_data c4wPayload.processor).map
        (fun tu => compute_taskunit_id tu.data tu.processor)).toFinset.card) :=
  c4_pending_counts_distinct_unit_ids oneWorkerState c4wPayload (by decide) rfl

/-- C5: a STATUS UP message — from any address, a repeated one from an
already-registered address included — appends exactly one RemoteNode and
exactly one scheduler slot in the same step, and every master-loop step
that does not crash preserves the equality of worker-node count and
scheduler-slot count. -/
theorem c5_up_registration_appends_node_and_slot (s : MasterState) (address : Address)
    (m : Msg) (s1 : MasterState) (hstep : masterStep s m = .ok s1)
    (hinv : s.slave_nodes.length = s.loads.length) :
    (handleStatus s address Node.STATE_UP).slave_nodes.length = s.slave_nodes.length + 1 ∧
    (handleStatus s address Node.STATE_UP).loads.length = s.loads.length + 1 ∧
    s1.slave_nodes.length = s1.loads.length := by
  refine ⟨by simp [handleStatus], by simp [handleStatus], ?_⟩
  cases m with
  | status source code =>
      simp only [masterStep, Except.ok.injEq] at hstep
      rw [← hstep]
      by_cases hc : code = Node.STATE_UP
      · simp [handleStatus, hc, hinv]
      · simp [handleStatus, hc, hinv]
  | jobMsg p =>
      simp only [masterStep, handleJob] at hstep
      cases hdis : dispatchAll p.id (Splitter.split p.input_data p.processor) [] s with
      | error e => simp [hdis] at hstep
      | ok pr =>
          obtain ⟨d1, s2⟩ := pr
          simp only [hdis, Except.ok.injEq] at hstep
          obtain ⟨hsn, hll, _, _⟩ := dispatchAll_ok_state p.id _ _ _ _ _ hdis
          rw [← hstep]
          show s2.slave_nodes.length = s2.loads.length
          rw [hsn, hll]
          exact hinv
  | taskunitResult p => simp [masterStep] at hstep
  | other =>
      simp only [masterStep, Except.ok.injEq] at hstep
      rw [← hstep]
      exact hinv

/-- C5 witness: the address is already registered — the state holds it as
its one worker — and the repeated STATUS UP still appends one node and one
slot, keeping the counts aligned at two. -/
theorem c5_witness :
    (handleStatus oneWorkerState ("w1", 4) Node.STATE_UP).slave_nodes.length =
      oneWorkerState.slave_nodes.length + 1 ∧
    (handleStatus oneWorkerState ("w1", 4) Node.STATE_UP).loads.length =
      oneWorkerState.loads.length + 1 ∧
    (handleStatus oneWorkerState ("w1", 4) Node.STATE_UP).slave_nodes.length =
      (handleStatus oneWorkerState ("w1", 4) Node.STATE_UP).loads.length :=
  c5_up_registration_appends_node_and_slot oneWorkerState ("w1", 4)
    (Msg.status ("w1", 4) Node.STATE_UP)
    (handleStatus oneWorkerState ("w1", 4) Node.STATE_UP) rfl rfl

/-- C6: the claim says a TASKUNIT_RESULT with an unknown job or taskunit
id is rejected or logged and the loop continues.  In the code the branch
crashes the loop instead: the NameError of line 110 is raised before the
ids are even read (and the intended lookups jobs-of-job-id and
taskunits-of-id are unguarded dict indexing, which would raise KeyError
for a stray id).  Here the job table has no entry for the arriving job id
and the step still terminates the loop with the uncaught NameError. -/
theorem c6_stray_result_crashes_loop :
    pyDictGet cEmptyMaster.jobs "deadbeef" = none ∧
    masterStep cEmptyMaster (Msg.taskunitResult cStrayResult) =
      .error (.nameError "name deserialized_msg is not defined") :=
  ⟨rfl, rfl⟩

/-- C7: a submitted job lacking a processor aborts enqueue_job with an
error (the unguarded attribute access raises before anything is handed to
the messenger, and an error result means nothing was sent), while a Job
constructed without a splitter or combiner is no error: Job.__init__ falls
back to a fresh default Splitter and default Combiner. -/
theorem c7_processor_required_defaults_optional :
    (∀ mod : JobModule, mod.processor = none →
      enqueue_job mod = .error (.attributeError "module jobs has no attribute processor")) ∧
    (∀ (cls : JobClassState) (id input_data processor : Option String),
      (mkJob cls id input_data processor none none).1.splitter =
        { split_override := none } ∧
      (mkJob cls id input_data processor none none).1.combiner =
        { taskunits := [], combine_override := none }) := by
  constructor
  · intro mod h
    simp [enqueue_job, h]
  · intro cls id input_data processor
    exact ⟨rfl, rfl⟩

/-- C7 witness: a concrete processorless module is rejected with the
attribute error, and a concrete Job built with neither splitter nor
combiner carries the defaults. -/
theorem c7_witness :
    enqueue_job cNoProcModule =
      .error (.attributeError "module jobs has no attribute processor") ∧
    (mkJob { processor := none } none none (some "p") none none).1.splitter =
      { split_override := none } ∧
    (mkJob { processor := none } none none (some "p") none none).1.combiner =
      { taskunits := [], combine_override := none } :=
  ⟨c7_processor_required_defaults_optional.1 cNoProcModule rfl,
   c7_processor_required_defaults_optional.2 { processor := none } none none (some "p")⟩

/-- C8: compute_job_id equals the hex MD5 digest of the concatenation, in
the fixed order input_data, processor_code, split_code, combine_code, of
the byte representations of the four inputs — text encoded as UTF-8,
bytes passed through (spec_job_id is that characterization verbatim).
Determinism on equal inputs in equal order is immediate: both sides are
pure functions of the four arguments. -/
theorem c8_job_id_refines_spec (input_data processor_code split_code combine_code : PyData) :
    compute_job_id input_data processor_code split_code combine_code =
      spec_job_id input_data processor_code split_code combine_code := by
  cases input_data <;> cases processor_code <;> cases split_code <;> cases combine_code <;> rfl

/-- C9: Job.__init__ writes the processor onto the Job class, not the
instance, so after a second Job is constructed with a different processor
both Job objects observe the second processor; the first job's observable
processor did not stay unchanged. -/
theorem c9_processor_is_class_level (cls : JobClassState) (p1 p2 : Option String)
    (hne : p1 ≠ p2) :
    jobProcessor (mkJob cls none none p1 none none).2
      (mkJob cls none none p1 none none).1 = p1 ∧
    jobProcessor (mkJob (mkJob cls none none p1 none none).2 none none p2 none none).2
      (mkJob cls none none p1 none none).1 = p2 ∧
    jobProcessor (mkJob (mkJob cls none none p1 none none).2 none none p2 none none).2
      (mkJob (mkJob cls none none p1 none none).2 none none p2 none none).1 = p2 ∧
    jobProcessor (mkJob (mkJob cls none none p1 none none).2 none none p2 none none).2
      (mkJob cls none none p1 none none).1 ≠ p1 :=
  ⟨rfl, rfl, rfl, fun hcontra => hne (Eq.symm hcontra)⟩

/-- C9 witness: two concrete processors, constructed in sequence; the
first job observes the second processor afterwards. -/
theorem c9_witness :
    jobProcessor (mkJob { processor := none } none none c9P1 none none).2
      (mkJob { processor := none } none none c9P1 none none).1 = c9P1 ∧
    jobProcessor (mkJob (mkJob { processor := none } none none c9P1 none none).2
        none none c9P2 none none).2
      (mkJob { processor := none } none none c9P1 none none).1 = c9P2 ∧
    jobProcessor (mkJob (mkJob { processor := none } none none c9P1 none none).2
        none none c9P2 none none).2
      (mkJob (mkJob { processor := none } none none c9P1 none none).2
        none none c9P2 none none).1 = c9P2 ∧
    jobProcessor (mkJob (mkJob { processor := none } none none c9P1 none none).2
        none none c9P2 none none).2
      (mkJob { processor := none } none none c9P1 none none).1 ≠ c9P1 :=
  c9_processor_is_class_level { processor := none } c9P1 c9P2 (by decide)

/-- C10 counterexample: the claim says every call to enqueue_job raises a
TypeError.  A jobs module that defines no processor — allowed by the
documented module format — fails earlier, at the processor attribute
access, with AttributeError and not with a TypeError. -/
theorem c10_counterexample :
    enqueue_job cNoProcModule =
      .error (.attributeError "module jobs has no attribute processor") ∧
    ∀ msg, enqueue_job cNoProcModule ≠ .error (.typeError msg) := by
  refine ⟨rfl, ?_⟩
  intro msg h
  simp [enqueue_job, cNoProcModule] at h

/-- C10 as amended: whenever the jobs module defines processor and
input_file — so that the Job(...) call is reached — enqueue_job raises
TypeError for the input_file keyword, which Job.__init__ does not declare;
a module lacking those attributes fails earlier with AttributeError; in
every case enqueue_job raises before the job is sent. -/
theorem c10_unexpected_keyword_aborts (mod : JobModule) (p f : String)
    (hp : mod.processor = some p) (hf : mod.input_file = some f) :
    enqueue_job mod = .error (.typeError "unexpected keyword argument input_file") ∧
    ∀ m : JobModule, exceptIsOk (enqueue_job m) = false := by
  constructor
  · simp only [enqueue_job, hp, hf]
    rfl
  · intro m
    obtain ⟨op, osp, oc, od, ofi⟩ := m
    cases op <;> cases ofi <;> rfl

/-- C10 witness: a complete module is rejected with the TypeError, and no
module whatsoever reaches the send. -/
theorem c10_witness :
    enqueue_job cCompleteModule =
      .error (.typeError "unexpected keyword argument input_file") ∧
    ∀ m : JobModule, exceptIsOk (enqueue_job m) = false :=
  c10_unexpected_keyword_aborts cCompleteModule
    "def processor(d):\n    return 1\n" "input.txt" rfl rfl

end Antnest
